import Mathlib

/-!
Verification of the SIP indicator-resource service:
a shallow embedding of the CRUD handlers in
`src/services/web/project/api/routes/indicator.py` and
`src/services/web/project/api/routes/indicator_status.py`,
together with proofs of the behavioural properties stated in the spec.

The relational store is modelled as lists of rows; SQLAlchemy query
combinators become list operations (`filter_by(...).first()` is `List.find?`,
`query.get(id)` is `List.find?` on the primary key,
`order_by(id).limit(1).first()` is a minimum-by-id fold).
Handlers are pure functions from a store and a request to a status code and
a new store; an early `return error_response(code, ...)` leaves the store
unchanged (the uncommitted session is discarded), matching the spec's
"each request is atomic (commit or rollback as a unit)".
-/

namespace SIP

/-- A row of the `IndicatorType` table: a taxonomy value naming a type. -/
structure IndicatorTypeRow where
  id : Nat
  value : String
  deriving DecidableEq

/-- A row of the `User` table (only the columns the handlers read). -/
structure UserRow where
  id : Nat
  username : String
  active : Bool
  deriving DecidableEq

/-- A row of the `IndicatorConfidence` taxonomy table. -/
structure IndicatorConfidenceRow where
  id : Nat
  value : String
  deriving DecidableEq

/-- A row of the `IndicatorImpact` taxonomy table. -/
structure IndicatorImpactRow where
  id : Nat
  value : String
  deriving DecidableEq

/-- A row of the `IndicatorStatus` taxonomy table. -/
structure IndicatorStatusRow where
  id : Nat
  value : String
  deriving DecidableEq

/-- A row of the `Campaign` table; its natural key is `name`. -/
structure CampaignRow where
  id : Nat
  name : String
  deriving DecidableEq

/-- A row of the `IntelSource` table. -/
structure IntelSourceRow where
  id : Nat
  value : String
  deriving DecidableEq

/-- A row of the `IntelReference` table; its natural key is `reference`,
and it carries a foreign key `intel_source_id` into `IntelSource`. -/
structure IntelReferenceRow where
  id : Nat
  reference : String
  intel_source_id : Nat
  deriving DecidableEq

/-- A row of the `Tag` table. -/
structure TagRow where
  id : Nat
  value : String
  deriving DecidableEq

/-- A row of the `Indicator` table.  The many-to-many collections
(`campaigns`, `references`, `tags`) hold foreign keys as `Option Nat`
because the update handler can append the result of a failed lookup
(Python `None`) to the list it assigns; the create handler only ever
stores `some` ids.  `confidence_id`, `impact_id` and `status_id` are
`Option Nat` because the defaulting query on an empty taxonomy table
yields `None`. -/
structure IndicatorRow where
  id : Nat
  type_id : Nat
  user_id : Nat
  value : String
  campaigns : List (Option Nat)
  case_sensitive : Bool
  confidence_id : Option Nat
  impact_id : Option Nat
  references : List (Option Nat)
  status_id : Option Nat
  substring : Bool
  tags : List (Option Nat)
  created_time : Int
  modified_time : Int
  deriving DecidableEq

/-- The relational store: one list of rows per table. -/
structure Store where
  indicator_types : List IndicatorTypeRow
  users : List UserRow
  confidences : List IndicatorConfidenceRow
  impacts : List IndicatorImpactRow
  statuses : List IndicatorStatusRow
  campaigns : List CampaignRow
  intel_sources : List IntelSourceRow
  intel_references : List IntelReferenceRow
  tags : List TagRow
  indicators : List IndicatorRow
  /-- Modelled from the spec: the ORM models (`project/models.py`) are not
  under `src/`, so the rows elsewhere in the schema that hold a foreign key
  to an `Indicator` (the reason `delete_indicator` catches `IntegrityError`)
  are modelled abstractly as the list of indicator ids currently referenced
  by some other row. -/
  indicator_refs : List Nat
  deriving DecidableEq

/-- The query `order_by(id).limit(1).first()`: the first row by ascending id. -/
def minBy {α : Type} (f : α → Nat) : List α → Option α
  | [] => none
  | x :: xs =>
    match minBy f xs with
    | none => some x
    | some y => if f y < f x then some y else some x

/-- The result of a mutating handler: an HTTP status code and the store
after the request (the original store when the request failed). -/
structure Resp where
  status : Nat
  store : Store
  deriving DecidableEq

/-! ## Taxonomy CRUD: `indicator_status.py` -/

/-- Handler `create_indicator_status` (`POST /indicators/status`): reject a
duplicate value with 409, otherwise insert a fresh row and return 201.
The database-assigned autoincrement primary key is modelled as one more
than the largest id in the table. -/
def create_indicator_status (s : Store) (v : String) : Resp :=
  match s.statuses.find? (fun r => r.value == v) with
  | some _ => ⟨409, s⟩
  | none =>
    let newId := (s.statuses.foldl (fun m r => max m r.id) 0) + 1
    ⟨201, { s with statuses := s.statuses ++ [⟨newId, v⟩] }⟩

/-- Handler `read_indicator_status` (`GET /indicators/status/{id}`): 404 when the
id is absent, otherwise 200 with the row. -/
def read_indicator_status (s : Store) (sid : Nat) : Nat × Option IndicatorStatusRow :=
  match s.statuses.find? (fun r => r.id == sid) with
  | none => (404, none)
  | some r => (200, some r)

/-- Handler `update_indicator_status` (`PUT /indicators/status/{id}`): 404 when the
id is absent; 409 when any row (including the row being updated itself)
already has the new value; otherwise rename and return 200. -/
def update_indicator_status (s : Store) (sid : Nat) (v : String) : Resp :=
  match s.statuses.find? (fun r => r.id == sid) with
  | none => ⟨404, s⟩
  | some _ =>
    match s.statuses.find? (fun r => r.value == v) with
    | some _ => ⟨409, s⟩
    | none =>
      ⟨200, { s with statuses :=
        s.statuses.map (fun r => if r.id == sid then { r with value := v } else r) }⟩

/-- Handler `delete_indicator_status` (`DELETE /indicators/status/{id}`): 404 when
the id is absent; when the commit raises `IntegrityError` — modelled from
the spec as "a taxonomy row cannot be deleted while any Indicator still
references it" — roll back and return 409; otherwise delete and return
204. -/
def delete_indicator_status (s : Store) (sid : Nat) : Resp :=
  match s.statuses.find? (fun r => r.id == sid) with
  | none => ⟨404, s⟩
  | some _ =>
    if s.indicators.any (fun i => i.status_id == some sid) then
      ⟨409, s⟩
    else
      ⟨204, { s with statuses := s.statuses.filter (fun r => !(r.id == sid)) }⟩

/-! ## Indicator create: `indicator.py` `create_indicator` -/

/-- The request body accepted by the create schema: `username`, `type` and
`value` are required; the rest are optional (`none` when the key is absent
from the JSON body).  `case_sensitive` and `substring` hold booleans, the
schema having already enforced the type, so the `parse_boolean` helper
(whose source is not under `src/`) is the identity on them. -/
structure CreateBody where
  campaigns : Option (List String)
  case_sensitive : Option Bool
  confidence : Option String
  impact : Option String
  references : Option (List String)
  status : Option String
  substring : Option Bool
  tags : Option (List String)
  username : String
  «type» : String
  value : String
  deriving DecidableEq

/-- Resolve a list of natural keys, failing (like the create handler's
loops, which `return error_response(404, ...)` on the first miss) when any
key has no row. -/
def resolveAll (f : String → Option Nat) : List String → Option (List Nat)
  | [] => some []
  | v :: rest =>
    match f v with
    | none => none
    | some i => (resolveAll f rest).map (fun is => i :: is)

/-- Handler `create_indicator` (`POST /indicators`): resolve `type` (404 on miss),
`username` (404 on miss, 401 when inactive), reject a duplicate
(type, value) with 409, then resolve each optional field — campaigns,
confidence, impact, references, status, tags each 404 on a failed lookup,
confidence/impact/status defaulting to the first row by ascending id when
omitted — and commit the new row with 201.  `now` stands for the clock
read the ORM uses for `created_time`/`modified_time`; the autoincrement
primary key is modelled as one more than the largest existing id. -/
def create_indicator (s : Store) (b : CreateBody) (now : Int) : Resp :=
  match s.indicator_types.find? (fun r => r.value == b.type) with
  | none => ⟨404, s⟩
  | some _type =>
  match s.users.find? (fun u => u.username == b.username) with
  | none => ⟨404, s⟩
  | some user =>
  if !user.active then ⟨401, s⟩ else
  match s.indicators.find? (fun i => i.type_id == _type.id && i.value == b.value) with
  | some _ => ⟨409, s⟩
  | none =>
  match (match b.campaigns with
         | none => some []
         | some vs => resolveAll (fun v => (s.campaigns.find? (fun c => c.name == v)).map (fun c => c.id)) vs :
         Option (List Nat)) with
  | none => ⟨404, s⟩
  | some campaign_ids =>
  match (match b.confidence with
         | none => some ((minBy (fun r => r.id) s.confidences).map (fun r => r.id))
         | some v => ((s.confidences.find? (fun r => r.value == v)).map (fun r => some r.id)) :
         Option (Option Nat)) with
  | none => ⟨404, s⟩
  | some confidence_id =>
  match (match b.impact with
         | none => some ((minBy (fun r => r.id) s.impacts).map (fun r => r.id))
         | some v => ((s.impacts.find? (fun r => r.value == v)).map (fun r => some r.id)) :
         Option (Option Nat)) with
  | none => ⟨404, s⟩
  | some impact_id =>
  match (match b.references with
         | none => some []
         | some vs => resolveAll (fun v => (s.intel_references.find? (fun r => r.reference == v)).map (fun r => r.id)) vs :
         Option (List Nat)) with
  | none => ⟨404, s⟩
  | some reference_ids =>
  match (match b.status with
         | none => some ((minBy (fun r => r.id) s.statuses).map (fun r => r.id))
         | some v => ((s.statuses.find? (fun r => r.value == v)).map (fun r => some r.id)) :
         Option (Option Nat)) with
  | none => ⟨404, s⟩
  | some status_id =>
  match (match b.tags with
         | none => some []
         | some vs => resolveAll (fun v => (s.tags.find? (fun t => t.value == v)).map (fun t => t.id)) vs :
         Option (List Nat)) with
  | none => ⟨404, s⟩
  | some tag_ids =>
  ⟨201, { s with indicators := s.indicators ++
    [{ id := (s.indicators.foldl (fun m i => max m i.id) 0) + 1
       type_id := _type.id
       user_id := user.id
       value := b.value
       campaigns := campaign_ids.map some
       case_sensitive := b.case_sensitive.getD false
       confidence_id := confidence_id
       impact_id := impact_id
       references := reference_ids.map some
       status_id := status_id
       substring := b.substring.getD false
       tags := tag_ids.map some
       created_time := now
       modified_time := now }] }⟩

/-! ## Indicator update: `indicator.py` `update_indicator` -/

/-- The request body accepted by the update schema: every field optional,
no required keys. -/
structure UpdateBody where
  campaigns : Option (List String)
  case_sensitive : Option Bool
  confidence : Option String
  impact : Option String
  references : Option (List String)
  status : Option String
  substring : Option Bool
  tags : Option (List String)
  username : Option String
  deriving DecidableEq

/-- The `campaigns` block of `update_indicator`.  The handler builds
`valid_campaigns` by looking up each name, but calls
`error_response(404, ...)` on a miss WITHOUT returning it, so the loop
appends the `None` lookup result and carries on; the list (nonempty even
on misses) is then assigned wholesale.  This step therefore never fails. -/
def upd_campaigns (s : Store) (b : UpdateBody) (ind : IndicatorRow) : IndicatorRow :=
  match b.campaigns with
  | none => ind
  | some vs =>
    let valid := vs.map (fun v => (s.campaigns.find? (fun c => c.name == v)).map (fun c => c.id))
    if valid.isEmpty then ind else { ind with campaigns := valid }

/-- The `case_sensitive` block of `update_indicator`: assign when present. -/
def upd_case_sensitive (b : UpdateBody) (ind : IndicatorRow) : IndicatorRow :=
  match b.case_sensitive with
  | none => ind
  | some v => { ind with case_sensitive := v }

/-- The `confidence` block of `update_indicator`: when present, look the
value up and `return error_response(404, ...)` on a miss. -/
def upd_confidence (s : Store) (b : UpdateBody) (ind : IndicatorRow) : Except Nat IndicatorRow :=
  match b.confidence with
  | none => .ok ind
  | some v =>
    match s.confidences.find? (fun r => r.value == v) with
    | none => .error 404
    | some c => .ok { ind with confidence_id := some c.id }

/-- The `impact` block of `update_indicator`: when present, look the value
up and `return error_response(404, ...)` on a miss. -/
def upd_impact (s : Store) (b : UpdateBody) (ind : IndicatorRow) : Except Nat IndicatorRow :=
  match b.impact with
  | none => .ok ind
  | some v =>
    match s.impacts.find? (fun r => r.value == v) with
    | none => .error 404
    | some c => .ok { ind with impact_id := some c.id }

/-- The `references` block of `update_indicator`: same missing-`return`
slip as the campaigns block, so this step never fails either. -/
def upd_references (s : Store) (b : UpdateBody) (ind : IndicatorRow) : IndicatorRow :=
  match b.references with
  | none => ind
  | some vs =>
    let valid := vs.map (fun v => (s.intel_references.find? (fun r => r.reference == v)).map (fun r => r.id))
    if valid.isEmpty then ind else { ind with references := valid }

/-- The `status` block of `update_indicator`: when present, look the value
up and `return error_response(404, ...)` on a miss. -/
def upd_status (s : Store) (b : UpdateBody) (ind : IndicatorRow) : Except Nat IndicatorRow :=
  match b.status with
  | none => .ok ind
  | some v =>
    match s.statuses.find? (fun r => r.value == v) with
    | none => .error 404
    | some c => .ok { ind with status_id := some c.id }

/-- The `substring` block of `update_indicator`: assign when present. -/
def upd_substring (b : UpdateBody) (ind : IndicatorRow) : IndicatorRow :=
  match b.substring with
  | none => ind
  | some v => { ind with substring := v }

/-- The `tags` block of `update_indicator`: same missing-`return` slip as
the campaigns block, so this step never fails either. -/
def upd_tags (s : Store) (b : UpdateBody) (ind : IndicatorRow) : IndicatorRow :=
  match b.tags with
  | none => ind
  | some vs =>
    let valid := vs.map (fun v => (s.tags.find? (fun t => t.value == v)).map (fun t => t.id))
    if valid.isEmpty then ind else { ind with tags := valid }

/-- The `username` block of `update_indicator`: when present, 404 on an
unknown username and 401 on an inactive user, otherwise reassign. -/
def upd_username (s : Store) (b : UpdateBody) (ind : IndicatorRow) : Except Nat IndicatorRow :=
  match b.username with
  | none => .ok ind
  | some v =>
    match s.users.find? (fun u => u.username == v) with
    | none => .error 404
    | some user =>
      if !user.active then .error 401
      else .ok { ind with user_id := user.id }

/-- Handler `update_indicator`'s field blocks in source order, applied to the row
fetched by id; an `error` is an early `return error_response` (no commit,
store untouched). -/
def update_steps (s : Store) (b : UpdateBody) (ind : IndicatorRow) : Except Nat IndicatorRow := do
  let ind := upd_campaigns s b ind
  let ind := upd_case_sensitive b ind
  let ind ← upd_confidence s b ind
  let ind ← upd_impact s b ind
  let ind := upd_references s b ind
  let ind ← upd_status s b ind
  let ind := upd_substring b ind
  let ind := upd_tags s b ind
  upd_username s b ind

/-- Handler `update_indicator` (`PUT /indicators/{id}`): 404 when the id is
absent; otherwise apply the field blocks and, on success, commit the
patched row in place and return 200. -/
def update_indicator (s : Store) (iid : Nat) (b : UpdateBody) : Resp :=
  match s.indicators.find? (fun i => i.id == iid) with
  | none => ⟨404, s⟩
  | some ind =>
    match update_steps s b ind with
    | .error code => ⟨code, s⟩
    | .ok ind2 =>
      ⟨200, { s with indicators :=
        s.indicators.map (fun i => if i.id == iid then ind2 else i) }⟩

/-! ## Indicator collection read: `indicator.py` `read_indicators` -/

/-- The optional query parameters of `GET /indicators` (raw strings, as
in `request.args`). -/
structure ReadArgs where
  case_sensitive : Option String
  created_after : Option String
  created_before : Option String
  confidence : Option String
  impact : Option String
  modified_after : Option String
  modified_before : Option String
  sources : Option String
  status : Option String
  substring : Option String
  tags : Option String
  «type» : Option String
  value : Option String
  deriving DecidableEq

/-- Modelled from the spec: the helper `parse_boolean` from
`project.api.helpers` is not under `src/`; on a query string it parses the
usual spellings of a boolean and otherwise falls back to the supplied
default (`None` at both call sites in `read_indicators`). -/
def parse_boolean (a : String) : Option Bool :=
  if a == "true" || a == "True" || a == "1" then some true
  else if a == "false" || a == "False" || a == "0" then some false
  else none

/-- Python `datetime.date.min` (0001-01-01) as a Unix timestamp. -/
def dateMin : Int := -62135596800

/-- Python `datetime.date.max` (9999-12-31) as a Unix timestamp. -/
def dateMax : Int := 253402214400

/-- Does `needle` start `hay`? -/
def charsStart : List Char → List Char → Bool
  | [], _ => true
  | _ :: _, [] => false
  | a :: as, b :: bs => a == b && charsStart as bs

/-- Does `needle` occur contiguously in `hay`? -/
def charsInfixOf (needle : List Char) : List Char → Bool
  | [] => charsStart needle []
  | b :: bs => charsStart needle (b :: bs) || charsInfixOf needle bs

/-- Substring containment, for `Indicator.value.like('%...%')`. -/
def strContains (hay needle : String) : Bool :=
  charsInfixOf needle.data hay.data

/-- The conjunctive filter set of `read_indicators`, as a predicate on an
indicator row: each supplied query parameter contributes its filter(s),
absent parameters contribute nothing.  `pd` stands for the external
`dateutil.parser.parse` (its boolean argument is the `ignoretz` flag),
returning `none` when parsing raises `ValueError`/`OverflowError`; the
handler then substitutes `datetime.date.max` for the `after` filters and
`datetime.date.min` for the `before` filters.  An unresolvable
confidence/impact/sources/status/type natural key degrades to the
impossible id `-1`. -/
def indicator_matches (s : Store) (args : ReadArgs) (pd : Bool → String → Option Int)
    (i : IndicatorRow) : Bool :=
  (match args.case_sensitive with
   | none => true
   | some a =>
     match parse_boolean a with
     | some bv => i.case_sensitive == bv
     | none => false) &&
  (match args.created_after with
   | none => true
   | some a =>
     let created_after := (pd true a).getD dateMax
     decide (created_after < i.created_time)) &&
  (match args.created_before with
   | none => true
   | some a =>
     let created_before := (pd true a).getD dateMin
     decide (i.created_time < created_before)) &&
  (match args.confidence with
   | none => true
   | some a =>
     let confidence_id : Int :=
       match s.confidences.find? (fun r => r.value == a) with
       | some c => (c.id : Int)
       | none => -1
     match i.confidence_id with
     | some x => (x : Int) == confidence_id
     | none => false) &&
  (match args.impact with
   | none => true
   | some a =>
     let impact_id : Int :=
       match s.impacts.find? (fun r => r.value == a) with
       | some c => (c.id : Int)
       | none => -1
     match i.impact_id with
     | some x => (x : Int) == impact_id
     | none => false) &&
  (match args.modified_after with
   | none => true
   | some a =>
     let modified_after := (pd false a).getD dateMax
     decide (modified_after < i.modified_time)) &&
  (match args.modified_before with
   | none => true
   | some a =>
     let modified_before := (pd false a).getD dateMin
     decide (i.modified_time < modified_before)) &&
  (match args.sources with
   | none => true
   | some a =>
     (a.splitOn ",").all (fun sv =>
       let source_id : Int :=
         match s.intel_sources.find? (fun r => r.value == sv) with
         | some r => (r.id : Int)
         | none => -1
       i.references.any (fun orid =>
         match orid with
         | some rid =>
           match s.intel_references.find? (fun r => r.id == rid) with
           | some r => (r.intel_source_id : Int) == source_id
           | none => false
         | none => false))) &&
  (match args.status with
   | none => true
   | some a =>
     let status_id : Int :=
       match s.statuses.find? (fun r => r.value == a) with
       | some c => (c.id : Int)
       | none => -1
     match i.status_id with
     | some x => (x : Int) == status_id
     | none => false) &&
  (match args.substring with
   | none => true
   | some a =>
     match parse_boolean a with
     | some bv => i.substring == bv
     | none => false) &&
  (match args.tags with
   | none => true
   | some a =>
     (a.splitOn ",").all (fun search_tag =>
       i.tags.any (fun otid =>
         match otid with
         | some tid =>
           match s.tags.find? (fun t => t.id == tid) with
           | some t => t.value == search_tag
           | none => false
         | none => false))) &&
  (match args.type with
   | none => true
   | some a =>
     let type_id : Int :=
       match s.indicator_types.find? (fun r => r.value == a) with
       | some t => (t.id : Int)
       | none => -1
     (i.type_id : Int) == type_id) &&
  (match args.value with
   | none => true
   | some a => strContains i.value a)

/-- Handler `read_indicators` (`GET /indicators`): apply the conjunctive filter
set to the indicator table and return 200 with the matching rows (the
pagination envelope built by `to_collection_dict` is out of scope; the
result here is the full matching row set).  This handler has no error
branch. -/
def read_indicators (s : Store) (args : ReadArgs) (pd : Bool → String → Option Int) :
    Nat × List IndicatorRow :=
  (200, s.indicators.filter (indicator_matches s args pd))

/-! ## Indicator delete: `indicator.py` `delete_indicator` -/

/-- Handler `delete_indicator` (`DELETE /indicators/{id}`): 404 when the id is
absent; when the commit raises `IntegrityError` — modelled from the spec
as some other row still holding a foreign key to this indicator (see
`Store.indicator_refs`) — roll back and return 409; otherwise delete and
return 204. -/
def delete_indicator (s : Store) (iid : Nat) : Resp :=
  match s.indicators.find? (fun i => i.id == iid) with
  | none => ⟨404, s⟩
  | some _ =>
    if s.indicator_refs.any (fun r => r == iid) then
      ⟨409, s⟩
    else
      ⟨204, { s with indicators := s.indicators.filter (fun i => !(i.id == iid)) }⟩

/-! ## Concrete fixtures used by witnesses and counterexamples -/

/-- A sample indicator row (id 10, type 1, user 1). -/
def sampleIndicator : IndicatorRow :=
  { id := 10, type_id := 1, user_id := 1, value := "127.0.0.1",
    campaigns := [], case_sensitive := false, confidence_id := some 7,
    impact_id := some 2, references := [], status_id := some 1,
    substring := false, tags := [], created_time := 100, modified_time := 100 }

/-- A small populated store. -/
def sampleStore : Store :=
  { indicator_types := [⟨1, "IP"⟩]
    users := [⟨1, "analyst", true⟩]
    confidences := [⟨7, "LOW"⟩, ⟨3, "HIGH"⟩]
    impacts := [⟨2, "LOW"⟩]
    statuses := [⟨1, "New"⟩, ⟨2, "Open"⟩]
    campaigns := [⟨1, "camp1"⟩]
    intel_sources := [⟨1, "OSINT"⟩]
    intel_references := [⟨1, "ref1", 1⟩]
    tags := [⟨1, "tag1"⟩]
    indicators := [sampleIndicator]
    indicator_refs := [] }

/-- A create body with all optional fields omitted. -/
def sampleCreateBody : CreateBody :=
  { campaigns := none, case_sensitive := none, confidence := none, impact := none,
    references := none, status := none, substring := none, tags := none,
    username := "analyst", «type» := "IP", value := "8.8.8.8" }

/-- An update body supplying only `campaigns`, with a name that matches no
`Campaign` row. -/
def badCampaignBody : UpdateBody :=
  { campaigns := some ["nope"], case_sensitive := none, confidence := none,
    impact := none, references := none, status := none, substring := none,
    tags := none, username := none }

/-- An empty update body. -/
def emptyUpdateBody : UpdateBody :=
  { campaigns := none, case_sensitive := none, confidence := none,
    impact := none, references := none, status := none, substring := none,
    tags := none, username := none }

/-- Query args with no parameter supplied. -/
def emptyReadArgs : ReadArgs :=
  { case_sensitive := none, created_after := none, created_before := none,
    confidence := none, impact := none, modified_after := none,
    modified_before := none, sources := none, status := none,
    substring := none, tags := none, «type» := none, value := none }

/-! ## C9: a no-op taxonomy rename is rejected -/

/-- C9: for every `PUT /indicators/status/{id}` on an existing row whose
supplied value equals the row's own current value, the duplicate-value
check matches the row being updated itself, so the handler answers 409 and
leaves the store unchanged: a no-op rename is rejected. -/
theorem update_status_noop_rename_conflict (s : Store) (sid : Nat)
    (row : IndicatorStatusRow)
    (h : s.statuses.find? (fun r => r.id == sid) = some row) :
    update_indicator_status s sid row.value = ⟨409, s⟩ := by
  have hmem : row ∈ s.statuses := List.mem_of_find?_eq_some h
  have hsome : (s.statuses.find? (fun r => r.value == row.value)).isSome := by
    rw [List.find?_isSome]
    exact ⟨row, hmem, by simp⟩
  obtain ⟨x, hx⟩ := Option.isSome_iff_exists.mp hsome
  unfold update_indicator_status
  rw [h, hx]

/-- Witness for C9 at a concrete store: renaming status 1 to its current
value `"New"` yields 409 and no change. -/
theorem update_status_noop_rename_conflict_witness :
    update_indicator_status sampleStore 1 "New" = ⟨409, sampleStore⟩ :=
  update_status_noop_rename_conflict sampleStore 1 ⟨1, "New"⟩ (by decide)

/-! ## C8: taxonomy values stay unique within their table -/

/-- Uniqueness of taxonomy values within the `IndicatorStatus` table. -/
def UniqueStatusValues (l : List IndicatorStatusRow) : Prop :=
  l.Pairwise (fun a b => a.value ≠ b.value)

/-- Uniqueness of primary keys within the `IndicatorStatus` table (a
database invariant assumed of every reachable store). -/
def UniqueStatusIds (l : List IndicatorStatusRow) : Prop :=
  l.Pairwise (fun a b => a.id ≠ b.id)

/-- C8: a taxonomy `POST` whose value already exists answers 409 and
leaves the table unchanged; a taxonomy `PUT` whose new value already
exists answers 409 and leaves the table unchanged; and both create and
update preserve uniqueness of the values within the table (update
additionally assuming unique primary keys). -/
theorem taxonomy_value_uniqueness (s : Store) (v : String) (sid : Nat) :
    ((∃ r ∈ s.statuses, r.value = v) → create_indicator_status s v = ⟨409, s⟩)
    ∧ ((s.statuses.find? (fun r => r.id == sid)).isSome →
        (∃ r ∈ s.statuses, r.value = v) →
        update_indicator_status s sid v = ⟨409, s⟩)
    ∧ (UniqueStatusValues s.statuses →
        UniqueStatusValues (create_indicator_status s v).store.statuses)
    ∧ (UniqueStatusIds s.statuses → UniqueStatusValues s.statuses →
        UniqueStatusValues (update_indicator_status s sid v).store.statuses) := by
  refine ⟨?_, ?_, ?_, ?_⟩
  · rintro ⟨r, hmem, hval⟩
    have hsome : (s.statuses.find? (fun r => r.value == v)).isSome := by
      rw [List.find?_isSome]
      exact ⟨r, hmem, by simp [hval]⟩
    obtain ⟨x, hx⟩ := Option.isSome_iff_exists.mp hsome
    unfold create_indicator_status
    rw [hx]
  · rintro hid ⟨r, hmem, hval⟩
    obtain ⟨y, hy⟩ := Option.isSome_iff_exists.mp hid
    have hsome : (s.statuses.find? (fun r => r.value == v)).isSome := by
      rw [List.find?_isSome]
      exact ⟨r, hmem, by simp [hval]⟩
    obtain ⟨x, hx⟩ := Option.isSome_iff_exists.mp hsome
    unfold update_indicator_status
    rw [hy, hx]
  · intro hu
    unfold create_indicator_status
    cases hf : s.statuses.find? (fun r => r.value == v) with
    | some x => exact hu
    | none =>
      have hnone := List.find?_eq_none.mp hf
      dsimp only [UniqueStatusValues]
      rw [List.pairwise_append]
      refine ⟨hu, List.pairwise_singleton _ _, ?_⟩
      intro a ha b hb
      simp only [List.mem_singleton] at hb
      subst hb
      have := hnone a ha
      simp only [beq_iff_eq] at this
      simpa using this
  · intro hids hu
    unfold update_indicator_status
    cases hy : s.statuses.find? (fun r => r.id == sid) with
    | none => exact hu
    | some y =>
      cases hx : s.statuses.find? (fun r => r.value == v) with
      | some x => exact hu
      | none =>
        have hnone := List.find?_eq_none.mp hx
        dsimp only [UniqueStatusValues]
        rw [List.pairwise_map]
        refine List.Pairwise.imp_of_mem ?_ (hids.and hu)
        intro a b ha hb hab
        obtain ⟨haid, haval⟩ := hab
        by_cases h1 : (a.id == sid) = true
        · by_cases h2 : (b.id == sid) = true
          · exfalso
            simp only [beq_iff_eq] at h1 h2
            exact haid (h1.trans h2.symm)
          · rw [if_pos h1, if_neg h2]
            have hbv := hnone b hb
            simp only [beq_iff_eq] at hbv
            intro hcontra
            exact hbv hcontra.symm
        · by_cases h2 : (b.id == sid) = true
          · rw [if_neg h1, if_pos h2]
            have hav := hnone a ha
            simp only [beq_iff_eq] at hav
            intro hcontra
            exact hav hcontra
          · rw [if_neg h1, if_neg h2]
            exact haval

/-- Witness for C8 at a concrete store: re-creating the existing status
value `"New"` and renaming status 2 to the existing value `"New"` both
answer 409 and change nothing, and both operations preserve uniqueness. -/
theorem taxonomy_value_uniqueness_witness :
    create_indicator_status sampleStore "New" = ⟨409, sampleStore⟩
    ∧ update_indicator_status sampleStore 2 "New" = ⟨409, sampleStore⟩ := by
  constructor
  · exact (taxonomy_value_uniqueness sampleStore "New" 2).1
      ⟨⟨1, "New"⟩, by decide, rfl⟩
  · exact (taxonomy_value_uniqueness sampleStore "New" 2).2.1
      (by decide) ⟨⟨1, "New"⟩, by decide, rfl⟩

/-! ## C5: delete is foreign-key protected -/

/-- C5: deleting a still-referenced row — a taxonomy row referenced by an
indicator's foreign key, or an indicator referenced by some other row —
hits the commit-time integrity violation, is rolled back and answered
with 409 while the row remains; deleting an existing unreferenced row
answers 204 and removes exactly that row. -/
theorem delete_foreign_key_protection (s : Store) (sid iid : Nat) :
    ((s.statuses.find? (fun r => r.id == sid)).isSome →
      (s.indicators.any (fun i => i.status_id == some sid) = true →
        delete_indicator_status s sid = ⟨409, s⟩)
      ∧ (s.indicators.any (fun i => i.status_id == some sid) = false →
        (delete_indicator_status s sid).status = 204
        ∧ (delete_indicator_status s sid).store.statuses.find? (fun r => r.id == sid) = none
        ∧ ∀ r ∈ s.statuses, r.id ≠ sid →
            r ∈ (delete_indicator_status s sid).store.statuses))
    ∧ ((s.indicators.find? (fun i => i.id == iid)).isSome →
      (s.indicator_refs.any (fun r => r == iid) = true →
        delete_indicator s iid = ⟨409, s⟩)
      ∧ (s.indicator_refs.any (fun r => r == iid) = false →
        (delete_indicator s iid).status = 204
        ∧ (delete_indicator s iid).store.indicators.find? (fun i => i.id == iid) = none
        ∧ ∀ i ∈ s.indicators, i.id ≠ iid →
            i ∈ (delete_indicator s iid).store.indicators)) := by
  constructor
  · intro hsome
    obtain ⟨x, hx⟩ := Option.isSome_iff_exists.mp hsome
    constructor
    · intro href
      unfold delete_indicator_status
      rw [hx, if_pos href]
    · intro href
      have hres : delete_indicator_status s sid =
          ⟨204, { s with statuses := s.statuses.filter (fun r => !(r.id == sid)) }⟩ := by
        unfold delete_indicator_status
        rw [hx, if_neg (by simp [href])]
      refine ⟨by rw [hres], ?_, ?_⟩
      · rw [hres]
        rw [List.find?_eq_none]
        intro a ha
        have := List.of_mem_filter ha
        simp only [Bool.not_eq_true'] at this
        simp [this]
      · intro r hr hne
        rw [hres]
        apply List.mem_filter.mpr
        exact ⟨hr, by simp [hne]⟩
  · intro hsome
    obtain ⟨x, hx⟩ := Option.isSome_iff_exists.mp hsome
    constructor
    · intro href
      unfold delete_indicator
      rw [hx, if_pos href]
    · intro href
      have hres : delete_indicator s iid =
          ⟨204, { s with indicators := s.indicators.filter (fun i => !(i.id == iid)) }⟩ := by
        unfold delete_indicator
        rw [hx, if_neg (by simp [href])]
      refine ⟨by rw [hres], ?_, ?_⟩
      · rw [hres]
        rw [List.find?_eq_none]
        intro a ha
        have := List.of_mem_filter ha
        simp only [Bool.not_eq_true'] at this
        simp [this]
      · intro i hi hne
        rw [hres]
        apply List.mem_filter.mpr
        exact ⟨hi, by simp [hne]⟩

/-- Witness for C5 at a concrete store: status 1 is referenced by the
sample indicator, so its delete answers 409 and changes nothing; status 2
is unreferenced, so its delete answers 204 and removes it; the sample
indicator itself is unreferenced, so its delete answers 204 and removes
it. -/
theorem delete_foreign_key_protection_witness :
    delete_indicator_status sampleStore 1 = ⟨409, sampleStore⟩
    ∧ (delete_indicator_status sampleStore 2).status = 204
    ∧ (delete_indicator sampleStore 10).status = 204 := by
  refine ⟨?_, ?_, ?_⟩
  · exact ((delete_foreign_key_protection sampleStore 1 10).1 (by decide)).1 (by decide)
  · exact (((delete_foreign_key_protection sampleStore 2 10).1 (by decide)).2 (by decide)).1
  · exact (((delete_foreign_key_protection sampleStore 2 10).2 (by decide)).2 (by decide)).1

/-! ## Properties of the minimum-by-id query -/

/-- Query `minBy` returns `none` exactly on the empty table. -/
lemma minBy_eq_none {α : Type} (f : α → Nat) (l : List α) :
    minBy f l = none ↔ l = [] := by
  cases l with
  | nil => simp [minBy]
  | cons a as =>
    cases hm : minBy f as with
    | none => simp [minBy, hm]
    | some y =>
      simp only [minBy, hm]
      constructor
      · intro hcontra
        split at hcontra <;> simp_all
      · intro hcontra
        simp at hcontra

/-- The row returned by `minBy` belongs to the table. -/
lemma minBy_mem {α : Type} (f : α → Nat) (l : List α) (x : α)
    (h : minBy f l = some x) : x ∈ l := by
  induction l generalizing x with
  | nil => simp [minBy] at h
  | cons a as ih =>
    cases hm : minBy f as with
    | none =>
      simp only [minBy, hm] at h
      injection h with h
      subst h
      exact List.mem_cons_self a as
    | some y =>
      simp only [minBy, hm] at h
      by_cases hlt : f y < f a
      · rw [if_pos hlt] at h
        injection h with h
        subst h
        exact List.mem_cons_of_mem a (ih y hm)
      · rw [if_neg hlt] at h
        injection h with h
        subst h
        exact List.mem_cons_self a as

/-- The row returned by `minBy` has minimal measure in the table. -/
lemma minBy_le {α : Type} (f : α → Nat) (l : List α) (x : α)
    (h : minBy f l = some x) : ∀ y ∈ l, f x ≤ f y := by
  induction l generalizing x with
  | nil => simp [minBy] at h
  | cons a as ih =>
    cases hm : minBy f as with
    | none =>
      simp only [minBy, hm] at h
      injection h with h
      subst h
      have : as = [] := (minBy_eq_none f as).mp hm
      subst this
      simp
    | some y =>
      simp only [minBy, hm] at h
      by_cases hlt : f y < f a
      · rw [if_pos hlt] at h
        injection h with h
        subst h
        intro z hz
        rcases List.mem_cons.mp hz with hz | hz
        · subst hz
          exact Nat.le_of_lt hlt
        · exact ih y hm z hz
      · rw [if_neg hlt] at h
        injection h with h
        subst h
        intro z hz
        rcases List.mem_cons.mp hz with hz | hz
        · subst hz
          exact Nat.le_refl _
        · exact Nat.le_trans (Nat.le_of_not_lt hlt) (ih y hm z hz)

/-! ## A shape lemma for `create_indicator` -/

/-- Every run of `create_indicator` either fails with 404, 401 or 409 and
leaves the store exactly as it was, or succeeds with 201 having passed
every lookup, and appends exactly one row built from the resolved
values — with the minimum-id default for each omitted taxonomy field. -/
lemma create_indicator_shape (s : Store) (b : CreateBody) (now : Int) :
    (∃ code, (code = 404 ∨ code = 401 ∨ code = 409) ∧
      create_indicator s b now = ⟨code, s⟩)
    ∨ (∃ (t : IndicatorTypeRow) (user : UserRow) (campaign_ids : List Nat)
         (confidence_id : Option Nat) (impact_id : Option Nat)
         (reference_ids : List Nat) (status_id : Option Nat) (tag_ids : List Nat),
        s.indicator_types.find? (fun r => r.value == b.type) = some t
        ∧ s.users.find? (fun u => u.username == b.username) = some user
        ∧ user.active = true
        ∧ s.indicators.find? (fun i => i.type_id == t.id && i.value == b.value) = none
        ∧ (b.confidence = none →
            confidence_id = (minBy (fun r => r.id) s.confidences).map (fun r => r.id))
        ∧ (b.impact = none →
            impact_id = (minBy (fun r => r.id) s.impacts).map (fun r => r.id))
        ∧ (b.status = none →
            status_id = (minBy (fun r => r.id) s.statuses).map (fun r => r.id))
        ∧ create_indicator s b now = ⟨201, { s with indicators := s.indicators ++
            [{ id := (s.indicators.foldl (fun m i => max m i.id) 0) + 1,
               type_id := t.id, user_id := user.id, value := b.value,
               campaigns := campaign_ids.map some,
               case_sensitive := b.case_sensitive.getD false,
               confidence_id := confidence_id, impact_id := impact_id,
               references := reference_ids.map some, status_id := status_id,
               substring := b.substring.getD false, tags := tag_ids.map some,
               created_time := now, modified_time := now }] }⟩) := by
  unfold create_indicator
  split
  · exact Or.inl ⟨404, by simp, rfl⟩
  next t hT =>
    split
    · exact Or.inl ⟨404, by simp, rfl⟩
    next user hU =>
      split
      · exact Or.inl ⟨401, by simp, rfl⟩
      next hAct =>
        split
        · exact Or.inl ⟨409, by simp, rfl⟩
        next hDup =>
          split
          · exact Or.inl ⟨404, by simp, rfl⟩
          next campaign_ids hCamp =>
            split
            · exact Or.inl ⟨404, by simp, rfl⟩
            next confidence_id hConf =>
              split
              · exact Or.inl ⟨404, by simp, rfl⟩
              next impact_id hImp =>
                split
                · exact Or.inl ⟨404, by simp, rfl⟩
                next reference_ids hRef =>
                  split
                  · exact Or.inl ⟨404, by simp, rfl⟩
                  next status_id hSt =>
                    split
                    · exact Or.inl ⟨404, by simp, rfl⟩
                    next tag_ids hTag =>
                      refine Or.inr ⟨t, user, campaign_ids, confidence_id,
                        impact_id, reference_ids, status_id, tag_ids,
                        hT, hU, ?_, hDup, ?_, ?_, ?_, rfl⟩
                      · revert hAct
                        cases user.active <;> simp
                      · intro hc
                        rw [hc] at hConf
                        simpa using hConf.symm
                      · intro hi
                        rw [hi] at hImp
                        simpa using hImp.symm
                      · intro hs
                        rw [hs] at hSt
                        simpa using hSt.symm

/-! ## C3: omitted confidence/impact/status default to the lowest-id row -/

/-- C3: every successful `POST /indicators` whose body omits `confidence`
(respectively `impact`, `status`) creates an indicator whose confidence
(respectively impact, status) is the row of the corresponding taxonomy
table with the lowest id (stated for nonempty tables; on an empty table
the default query returns no row and the field is `NULL`). -/
theorem create_indicator_defaults_lowest_id (s : Store) (b : CreateBody) (now : Int)
    (hc : b.confidence = none) (hi : b.impact = none) (hs : b.status = none)
    (h201 : (create_indicator s b now).status = 201) :
    ∃ ind, (create_indicator s b now).store.indicators.getLast? = some ind
      ∧ (s.confidences ≠ [] → ∃ c ∈ s.confidences,
          ind.confidence_id = some c.id ∧ ∀ r ∈ s.confidences, c.id ≤ r.id)
      ∧ (s.impacts ≠ [] → ∃ c ∈ s.impacts,
          ind.impact_id = some c.id ∧ ∀ r ∈ s.impacts, c.id ≤ r.id)
      ∧ (s.statuses ≠ [] → ∃ c ∈ s.statuses,
          ind.status_id = some c.id ∧ ∀ r ∈ s.statuses, c.id ≤ r.id) := by
  rcases create_indicator_shape s b now with ⟨code, hcode, heq⟩ |
    ⟨t, user, cids, ci, ii, rids, si, tids, hT, hU, hA, hD, hci, hii, hsi, heq⟩
  · rw [heq] at h201
    rcases hcode with h | h | h <;> simp [h] at h201
  · rw [heq]
    refine ⟨_, List.getLast?_concat _, ?_, ?_, ?_⟩
    · intro hne
      cases hmin : minBy (fun r => r.id) s.confidences with
      | none => exact absurd ((minBy_eq_none _ _).mp hmin) hne
      | some c =>
        refine ⟨c, minBy_mem _ _ _ hmin, ?_, minBy_le _ _ _ hmin⟩
        simp [hci hc, hmin]
    · intro hne
      cases hmin : minBy (fun r => r.id) s.impacts with
      | none => exact absurd ((minBy_eq_none _ _).mp hmin) hne
      | some c =>
        refine ⟨c, minBy_mem _ _ _ hmin, ?_, minBy_le _ _ _ hmin⟩
        simp [hii hi, hmin]
    · intro hne
      cases hmin : minBy (fun r => r.id) s.statuses with
      | none => exact absurd ((minBy_eq_none _ _).mp hmin) hne
      | some c =>
        refine ⟨c, minBy_mem _ _ _ hmin, ?_, minBy_le _ _ _ hmin⟩
        simp [hsi hs, hmin]

/-- Witness for C3 at a concrete store: the body omitting all three
taxonomy fields is created with the lowest-id confidence, impact and
status rows. -/
theorem create_indicator_defaults_lowest_id_witness :
    ∃ ind, (create_indicator sampleStore sampleCreateBody 200).store.indicators.getLast? = some ind
      ∧ (sampleStore.confidences ≠ [] → ∃ c ∈ sampleStore.confidences,
          ind.confidence_id = some c.id ∧ ∀ r ∈ sampleStore.confidences, c.id ≤ r.id)
      ∧ (sampleStore.impacts ≠ [] → ∃ c ∈ sampleStore.impacts,
          ind.impact_id = some c.id ∧ ∀ r ∈ sampleStore.impacts, c.id ≤ r.id)
      ∧ (sampleStore.statuses ≠ [] → ∃ c ∈ sampleStore.statuses,
          ind.status_id = some c.id ∧ ∀ r ∈ sampleStore.statuses, c.id ≤ r.id) :=
  create_indicator_defaults_lowest_id sampleStore sampleCreateBody 200
    rfl rfl rfl (by decide)

/-! ## C7: a failing create is atomic -/

/-- C7: every `POST /indicators` either succeeds with 201 or fails with
one of 404 (failed natural-key lookup), 401 (inactive user) or
409 (duplicate), and on every failure the store is exactly as before the
request; in particular an unknown type or username yields 404, an
inactive user 401, and a duplicate (type, value) 409. -/
theorem create_indicator_atomic_failure (s : Store) (b : CreateBody) (now : Int) :
    ((create_indicator s b now).status ≠ 201 → (create_indicator s b now).store = s)
    ∧ ((create_indicator s b now).status = 201 ∨ (create_indicator s b now).status = 404
        ∨ (create_indicator s b now).status = 401 ∨ (create_indicator s b now).status = 409)
    ∧ (s.indicator_types.find? (fun r => r.value == b.type) = none →
        create_indicator s b now = ⟨404, s⟩)
    ∧ (∀ t, s.indicator_types.find? (fun r => r.value == b.type) = some t →
        s.users.find? (fun u => u.username == b.username) = none →
        create_indicator s b now = ⟨404, s⟩)
    ∧ (∀ t u, s.indicator_types.find? (fun r => r.value == b.type) = some t →
        s.users.find? (fun u => u.username == b.username) = some u →
        u.active = false →
        create_indicator s b now = ⟨401, s⟩)
    ∧ (∀ t u, s.indicator_types.find? (fun r => r.value == b.type) = some t →
        s.users.find? (fun u => u.username == b.username) = some u →
        u.active = true →
        (s.indicators.find? (fun i => i.type_id == t.id && i.value == b.value)).isSome →
        create_indicator s b now = ⟨409, s⟩) := by
  refine ⟨?_, ?_, ?_, ?_, ?_, ?_⟩
  · intro hne
    rcases create_indicator_shape s b now with ⟨code, _, heq⟩ |
      ⟨_, _, _, _, _, _, _, _, _, _, _, _, _, _, _, heq⟩
    · rw [heq]
    · rw [heq] at hne
      simp at hne
  · rcases create_indicator_shape s b now with ⟨code, hcode, heq⟩ |
      ⟨_, _, _, _, _, _, _, _, _, _, _, _, _, _, _, heq⟩
    · rw [heq]
      rcases hcode with h | h | h <;> simp [h]
    · rw [heq]
      simp
  · intro hT
    unfold create_indicator
    rw [hT]
  · intro t hT hU
    unfold create_indicator
    rw [hT, hU]
  · intro t u hT hU hA
    simp only [create_indicator, hT, hU]
    rw [hA]
    simp
  · intro t u hT hU hA hdup
    obtain ⟨x, hx⟩ := Option.isSome_iff_exists.mp hdup
    simp only [create_indicator, hT, hU, hx]
    rw [hA]
    simp

/-- A create body naming an indicator type that has no row. -/
def unknownTypeBody : CreateBody :=
  { sampleCreateBody with «type» := "DOMAIN" }

/-- Witness for C7 at a concrete store: a body naming the unknown type
`"DOMAIN"` fails with 404 and leaves the store exactly as it was. -/
theorem create_indicator_atomic_failure_witness :
    create_indicator sampleStore unknownTypeBody 200 = ⟨404, sampleStore⟩ :=
  (create_indicator_atomic_failure sampleStore unknownTypeBody 200).2.2.1 (by decide)

/-! ## C4: duplicate (type, value) on create -/

/-- Uniqueness of the (type, value) pair across the `Indicator` table. -/
def UniqueTypeValue (l : List IndicatorRow) : Prop :=
  l.Pairwise (fun a b => ¬(a.type_id = b.type_id ∧ a.value = b.value))

/-- A create body whose (type, value) duplicates the sample indicator but
whose username matches no user row. -/
def dupGhostBody : CreateBody :=
  { sampleCreateBody with username := "ghost", value := "127.0.0.1" }

/-- Counterexample to C4 as stated: this `POST` carries the (type, value)
pair of an indicator already in the store, yet the response is 404 — the
username lookup fails before the duplicate check is reached — not 409. -/
theorem create_duplicate_not_always_conflict :
    sampleStore.indicator_types.find? (fun r => r.value == dupGhostBody.type) = some ⟨1, "IP"⟩
    ∧ (∃ i ∈ sampleStore.indicators, i.type_id = 1 ∧ i.value = dupGhostBody.value)
    ∧ (create_indicator sampleStore dupGhostBody 200).status = 404
    ∧ ¬((create_indicator sampleStore dupGhostBody 200).status = 409) := by
  decide

/-- C4 (amended): for every `POST /indicators` that reaches the duplicate
check — its type resolves, its username resolves to an active user — and
whose (type, value) pair equals that of an indicator already in the
store, the response is 409 and the store is unchanged; and create always
preserves uniqueness of the (type, value) pair. -/
theorem create_indicator_duplicate_conflict (s : Store) (b : CreateBody) (now : Int) :
    (∀ t u, s.indicator_types.find? (fun r => r.value == b.type) = some t →
      s.users.find? (fun x => x.username == b.username) = some u →
      u.active = true →
      (∃ i ∈ s.indicators, i.type_id = t.id ∧ i.value = b.value) →
      create_indicator s b now = ⟨409, s⟩)
    ∧ (UniqueTypeValue s.indicators →
        UniqueTypeValue (create_indicator s b now).store.indicators) := by
  constructor
  · rintro t u hT hU hA ⟨i, hmem, hit, hiv⟩
    have hdup : (s.indicators.find? (fun i => i.type_id == t.id && i.value == b.value)).isSome := by
      rw [List.find?_isSome]
      exact ⟨i, hmem, by simp [hit, hiv]⟩
    obtain ⟨x, hx⟩ := Option.isSome_iff_exists.mp hdup
    simp only [create_indicator, hT, hU, hx]
    rw [hA]
    simp
  · intro hu
    rcases create_indicator_shape s b now with ⟨code, _, heq⟩ |
      ⟨t, user, cids, ci, ii, rids, si, tids, hT, hU, hA, hD, _, _, _, heq⟩
    · rw [heq]
      exact hu
    · rw [heq]
      dsimp only [UniqueTypeValue]
      rw [List.pairwise_append]
      refine ⟨hu, List.pairwise_singleton _ _, ?_⟩
      intro a ha c hc
      simp only [List.mem_singleton] at hc
      subst hc
      have hnone := List.find?_eq_none.mp hD a ha
      simp only [Bool.and_eq_true, beq_iff_eq, not_and] at hnone
      rintro ⟨h1, h2⟩
      exact hnone h1 h2

/-- A create body duplicating the sample indicator's (type, value) under
a valid active user. -/
def dupBody : CreateBody :=
  { sampleCreateBody with value := "127.0.0.1" }

/-- Witness for the amended C4 at a concrete store: the duplicate under
an active user is rejected with 409 and the store is unchanged. -/
theorem create_indicator_duplicate_conflict_witness :
    create_indicator sampleStore dupBody 200 = ⟨409, sampleStore⟩ :=
  (create_indicator_duplicate_conflict sampleStore dupBody 200).1
    ⟨1, "IP"⟩ ⟨1, "analyst", true⟩ (by decide) (by decide) rfl (by decide)

/-! ## C6: unresolvable natural-key filters return an empty 200 -/

/-- A table id (nonnegative) never equals the impossible filter id `-1`. -/
lemma natCast_beq_negOne (x : Nat) : ((x : Int) == (-1 : Int)) = false := by
  rw [beq_eq_false_iff_ne]
  omega

/-- C6: every `GET /indicators` whose `confidence`, `impact`, `status`,
`type` or `sources` parameter names a value with no matching taxonomy row
substitutes the impossible id `-1` into the conjunctive filter set and
returns 200 with an empty result set — never an error response. -/
theorem read_indicators_unresolvable_filter_empty (s : Store) (args : ReadArgs)
    (pd : Bool → String → Option Int) :
    (∀ a, args.confidence = some a →
      s.confidences.find? (fun r => r.value == a) = none →
      read_indicators s args pd = (200, []))
    ∧ (∀ a, args.impact = some a →
      s.impacts.find? (fun r => r.value == a) = none →
      read_indicators s args pd = (200, []))
    ∧ (∀ a, args.status = some a →
      s.statuses.find? (fun r => r.value == a) = none →
      read_indicators s args pd = (200, []))
    ∧ (∀ a, args.type = some a →
      s.indicator_types.find? (fun r => r.value == a) = none →
      read_indicators s args pd = (200, []))
    ∧ (∀ a sv, args.sources = some a → sv ∈ a.splitOn "," →
      s.intel_sources.find? (fun r => r.value == sv) = none →
      read_indicators s args pd = (200, [])) := by
  refine ⟨?_, ?_, ?_, ?_, ?_⟩
  · intro a ha hf
    have hall : ∀ i ∈ s.indicators, ¬(indicator_matches s args pd i = true) := by
      intro i _
      cases hci : i.confidence_id with
      | none => simp [indicator_matches, ha, hf, hci]
      | some x => simp [indicator_matches, ha, hf, hci, natCast_beq_negOne]
    unfold read_indicators
    rw [List.filter_eq_nil_iff.mpr hall]
  · intro a ha hf
    have hall : ∀ i ∈ s.indicators, ¬(indicator_matches s args pd i = true) := by
      intro i _
      cases hci : i.impact_id with
      | none => simp [indicator_matches, ha, hf, hci]
      | some x => simp [indicator_matches, ha, hf, hci, natCast_beq_negOne]
    unfold read_indicators
    rw [List.filter_eq_nil_iff.mpr hall]
  · intro a ha hf
    have hall : ∀ i ∈ s.indicators, ¬(indicator_matches s args pd i = true) := by
      intro i _
      cases hci : i.status_id with
      | none => simp [indicator_matches, ha, hf, hci]
      | some x => simp [indicator_matches, ha, hf, hci, natCast_beq_negOne]
    unfold read_indicators
    rw [List.filter_eq_nil_iff.mpr hall]
  · intro a ha hf
    have hall : ∀ i ∈ s.indicators, ¬(indicator_matches s args pd i = true) := by
      intro i _
      simp [indicator_matches, ha, hf, natCast_beq_negOne]
    unfold read_indicators
    rw [List.filter_eq_nil_iff.mpr hall]
  · intro a sv ha hsv hf
    have hall : ∀ i ∈ s.indicators, ¬(indicator_matches s args pd i = true) := by
      intro i _
      have hsrc : ((a.splitOn ",").all (fun sv =>
          let source_id : Int :=
            match s.intel_sources.find? (fun r => r.value == sv) with
            | some r => (r.id : Int)
            | none => -1
          i.references.any (fun orid =>
            match orid with
            | some rid =>
              match s.intel_references.find? (fun r => r.id == rid) with
              | some r => (r.intel_source_id : Int) == source_id
              | none => false
            | none => false))) = false := by
        rw [List.all_eq_false]
        refine ⟨sv, hsv, ?_⟩
        simp only [hf]
        rw [Bool.not_eq_true, List.any_eq_false]
        intro orid _
        cases orid with
        | none => simp
        | some rid =>
          cases hr : s.intel_references.find? (fun r => r.id == rid) with
          | none => simp [hr]
          | some r => simp [hr, natCast_beq_negOne]
      simp [indicator_matches, ha, hsrc]
    unfold read_indicators
    rw [List.filter_eq_nil_iff.mpr hall]

/-- Query args whose only parameter is an unresolvable confidence. -/
def badConfidenceArgs : ReadArgs :=
  { emptyReadArgs with confidence := some "NOPE" }

/-- Witness for C6 at a concrete store: filtering on the nonexistent
confidence value `"NOPE"` returns 200 with no rows. -/
theorem read_indicators_unresolvable_filter_empty_witness :
    read_indicators sampleStore badConfidenceArgs (fun _ _ => none) = (200, []) :=
  (read_indicators_unresolvable_filter_empty sampleStore badConfidenceArgs
    (fun _ _ => none)).1 "NOPE" rfl (by decide)

/-! ## C10: unparseable date filters return an empty 200 -/

/-- C10: every `GET /indicators` whose `created_after`, `created_before`,
`modified_after` or `modified_before` parameter fails to parse as a date
substitutes an impossible bound (`datetime.date.max` for the `after`
filters, `datetime.date.min` for the `before` filters) and returns 200
with an empty result set rather than a 400 error — stated for stores
whose timestamps lie strictly within the representable date range, as
every stored timestamp does. -/
theorem read_indicators_bad_date_empty (s : Store) (args : ReadArgs)
    (pd : Bool → String → Option Int) :
    (∀ a, args.created_after = some a → pd true a = none →
      (∀ i ∈ s.indicators, i.created_time < dateMax) →
      read_indicators s args pd = (200, []))
    ∧ (∀ a, args.created_before = some a → pd true a = none →
      (∀ i ∈ s.indicators, dateMin < i.created_time) →
      read_indicators s args pd = (200, []))
    ∧ (∀ a, args.modified_after = some a → pd false a = none →
      (∀ i ∈ s.indicators, i.modified_time < dateMax) →
      read_indicators s args pd = (200, []))
    ∧ (∀ a, args.modified_before = some a → pd false a = none →
      (∀ i ∈ s.indicators, dateMin < i.modified_time) →
      read_indicators s args pd = (200, [])) := by
  refine ⟨?_, ?_, ?_, ?_⟩
  · intro a ha hp hbound
    have hall : ∀ i ∈ s.indicators, ¬(indicator_matches s args pd i = true) := by
      intro i hi
      have : ¬(dateMax < i.created_time) := by
        have := hbound i hi
        omega
      simp [indicator_matches, ha, hp, this]
    unfold read_indicators
    rw [List.filter_eq_nil_iff.mpr hall]
  · intro a ha hp hbound
    have hall : ∀ i ∈ s.indicators, ¬(indicator_matches s args pd i = true) := by
      intro i hi
      have : ¬(i.created_time < dateMin) := by
        have := hbound i hi
        omega
      simp [indicator_matches, ha, hp, this]
    unfold read_indicators
    rw [List.filter_eq_nil_iff.mpr hall]
  · intro a ha hp hbound
    have hall : ∀ i ∈ s.indicators, ¬(indicator_matches s args pd i = true) := by
      intro i hi
      have : ¬(dateMax < i.modified_time) := by
        have := hbound i hi
        omega
      simp [indicator_matches, ha, hp, this]
    unfold read_indicators
    rw [List.filter_eq_nil_iff.mpr hall]
  · intro a ha hp hbound
    have hall : ∀ i ∈ s.indicators, ¬(indicator_matches s args pd i = true) := by
      intro i hi
      have : ¬(i.modified_time < dateMin) := by
        have := hbound i hi
        omega
      simp [indicator_matches, ha, hp, this]
    unfold read_indicators
    rw [List.filter_eq_nil_iff.mpr hall]

/-- Query args whose only parameter is an unparseable `created_after`. -/
def badDateArgs : ReadArgs :=
  { emptyReadArgs with created_after := some "not-a-date" }

/-- Witness for C10 at a concrete store: an unparseable `created_after`
value returns 200 with no rows. -/
theorem read_indicators_bad_date_empty_witness :
    read_indicators sampleStore badDateArgs (fun _ _ => none) = (200, []) :=
  (read_indicators_bad_date_empty sampleStore badDateArgs
    (fun _ _ => none)).1 "not-a-date" rfl rfl (by decide)

/-! ## C1: unresolvable names in an update's campaigns/references/tags -/

/-- C1: evaluation of `update_indicator` at a failing input.  The body
supplies `campaigns := ["nope"]`, a name with no `Campaign` row; contrary
to the claim, the handler does not fail with 404 — the campaigns loop
calls `error_response(404, ...)` without `return`, appends the `None`
lookup result, and reassigns the field — so the request succeeds with 200
and the indicator's campaigns become `[None]`. -/
theorem update_unknown_campaign_not_rejected :
    sampleStore.campaigns.find? (fun c => c.name == "nope") = none
    ∧ (update_indicator sampleStore 10 badCampaignBody).status = 200
    ∧ ¬((update_indicator sampleStore 10 badCampaignBody).status = 404)
    ∧ (update_indicator sampleStore 10 badCampaignBody).store.indicators.find?
        (fun i => i.id == 10) = some { sampleIndicator with campaigns := [none] } := by
  decide

/-! ## C2: partial update touches only the supplied fields -/

/-- The frame property of a patched row against the request body: the
columns no request field can touch are unchanged, and each updatable
column is unchanged whenever its body field is absent. -/
def FrameOk (b : UpdateBody) (ind ind2 : IndicatorRow) : Prop :=
  ind2.id = ind.id ∧ ind2.type_id = ind.type_id ∧ ind2.value = ind.value
  ∧ ind2.created_time = ind.created_time ∧ ind2.modified_time = ind.modified_time
  ∧ (b.campaigns = none → ind2.campaigns = ind.campaigns)
  ∧ (b.case_sensitive = none → ind2.case_sensitive = ind.case_sensitive)
  ∧ (b.confidence = none → ind2.confidence_id = ind.confidence_id)
  ∧ (b.impact = none → ind2.impact_id = ind.impact_id)
  ∧ (b.references = none → ind2.references = ind.references)
  ∧ (b.status = none → ind2.status_id = ind.status_id)
  ∧ (b.substring = none → ind2.substring = ind.substring)
  ∧ (b.tags = none → ind2.tags = ind.tags)
  ∧ (b.username = none → ind2.user_id = ind.user_id)

/-- Relation `FrameOk` is reflexive. -/
lemma FrameOk.refl (b : UpdateBody) (ind : IndicatorRow) : FrameOk b ind ind := by
  unfold FrameOk
  simp

/-- Relation `FrameOk` composes along consecutive patch steps. -/
lemma FrameOk.trans {b : UpdateBody} {i1 i2 i3 : IndicatorRow}
    (h12 : FrameOk b i1 i2) (h23 : FrameOk b i2 i3) : FrameOk b i1 i3 := by
  obtain ⟨a1, a2, a3, a4, a5, a6, a7, a8, a9, a10, a11, a12, a13, a14⟩ := h12
  obtain ⟨c1, c2, c3, c4, c5, c6, c7, c8, c9, c10, c11, c12, c13, c14⟩ := h23
  exact ⟨c1.trans a1, c2.trans a2, c3.trans a3, c4.trans a4, c5.trans a5,
    fun h => (c6 h).trans (a6 h), fun h => (c7 h).trans (a7 h),
    fun h => (c8 h).trans (a8 h), fun h => (c9 h).trans (a9 h),
    fun h => (c10 h).trans (a10 h), fun h => (c11 h).trans (a11 h),
    fun h => (c12 h).trans (a12 h), fun h => (c13 h).trans (a13 h),
    fun h => (c14 h).trans (a14 h)⟩

/-- The campaigns block only changes `campaigns`, and only when supplied. -/
lemma upd_campaigns_frame (s : Store) (b : UpdateBody) (ind : IndicatorRow) :
    FrameOk b ind (upd_campaigns s b ind) := by
  unfold FrameOk upd_campaigns
  cases hb : b.campaigns with
  | none => simp
  | some vs =>
    dsimp only
    split
    · simp [hb]
    · simp [hb]

/-- The case_sensitive block only changes `case_sensitive`, and only when
supplied. -/
lemma upd_case_sensitive_frame (b : UpdateBody) (ind : IndicatorRow) :
    FrameOk b ind (upd_case_sensitive b ind) := by
  unfold FrameOk upd_case_sensitive
  cases hb : b.case_sensitive with
  | none => simp
  | some v => simp [hb]

/-- The references block only changes `references`, and only when
supplied. -/
lemma upd_references_frame (s : Store) (b : UpdateBody) (ind : IndicatorRow) :
    FrameOk b ind (upd_references s b ind) := by
  unfold FrameOk upd_references
  cases hb : b.references with
  | none => simp
  | some vs =>
    dsimp only
    split
    · simp [hb]
    · simp [hb]

/-- The substring block only changes `substring`, and only when
supplied. -/
lemma upd_substring_frame (b : UpdateBody) (ind : IndicatorRow) :
    FrameOk b ind (upd_substring b ind) := by
  unfold FrameOk upd_substring
  cases hb : b.substring with
  | none => simp
  | some v => simp [hb]

/-- The tags block only changes `tags`, and only when supplied. -/
lemma upd_tags_frame (s : Store) (b : UpdateBody) (ind : IndicatorRow) :
    FrameOk b ind (upd_tags s b ind) := by
  unfold FrameOk upd_tags
  cases hb : b.tags with
  | none => simp
  | some vs =>
    dsimp only
    split
    · simp [hb]
    · simp [hb]

/-- The confidence block, when it succeeds, only changes `confidence_id`,
and only when supplied. -/
lemma upd_confidence_frame (s : Store) (b : UpdateBody) (ind ind2 : IndicatorRow)
    (h : upd_confidence s b ind = .ok ind2) : FrameOk b ind ind2 := by
  unfold upd_confidence at h
  cases hb : b.confidence with
  | none =>
    simp only [hb, Except.ok.injEq] at h
    subst h
    exact FrameOk.refl b ind
  | some v =>
    simp only [hb] at h
    cases hf : s.confidences.find? (fun r => r.value == v) with
    | none => simp only [hf] at h; simp at h
    | some c =>
      simp only [hf, Except.ok.injEq] at h
      subst h
      unfold FrameOk
      simp [hb]

/-- The impact block, when it succeeds, only changes `impact_id`, and
only when supplied. -/
lemma upd_impact_frame (s : Store) (b : UpdateBody) (ind ind2 : IndicatorRow)
    (h : upd_impact s b ind = .ok ind2) : FrameOk b ind ind2 := by
  unfold upd_impact at h
  cases hb : b.impact with
  | none =>
    simp only [hb, Except.ok.injEq] at h
    subst h
    exact FrameOk.refl b ind
  | some v =>
    simp only [hb] at h
    cases hf : s.impacts.find? (fun r => r.value == v) with
    | none => simp only [hf] at h; simp at h
    | some c =>
      simp only [hf, Except.ok.injEq] at h
      subst h
      unfold FrameOk
      simp [hb]

/-- The status block, when it succeeds, only changes `status_id`, and
only when supplied. -/
lemma upd_status_frame (s : Store) (b : UpdateBody) (ind ind2 : IndicatorRow)
    (h : upd_status s b ind = .ok ind2) : FrameOk b ind ind2 := by
  unfold upd_status at h
  cases hb : b.status with
  | none =>
    simp only [hb, Except.ok.injEq] at h
    subst h
    exact FrameOk.refl b ind
  | some v =>
    simp only [hb] at h
    cases hf : s.statuses.find? (fun r => r.value == v) with
    | none => simp only [hf] at h; simp at h
    | some c =>
      simp only [hf, Except.ok.injEq] at h
      subst h
      unfold FrameOk
      simp [hb]

/-- The username block, when it succeeds, only changes `user_id`, and
only when supplied. -/
lemma upd_username_frame (s : Store) (b : UpdateBody) (ind ind2 : IndicatorRow)
    (h : upd_username s b ind = .ok ind2) : FrameOk b ind ind2 := by
  unfold upd_username at h
  cases hb : b.username with
  | none =>
    simp only [hb, Except.ok.injEq] at h
    subst h
    exact FrameOk.refl b ind
  | some v =>
    simp only [hb] at h
    cases hf : s.users.find? (fun u => u.username == v) with
    | none => simp only [hf] at h; simp at h
    | some u =>
      simp only [hf] at h
      cases ha : u.active with
      | false => simp only [ha] at h; simp at h
      | true =>
        simp only [ha, Bool.not_true, Bool.false_eq_true, if_false,
          Except.ok.injEq] at h
        subst h
        unfold FrameOk
        simp [hb]

/-- A successful run of `update_indicator`'s field blocks satisfies the
frame property against the request body. -/
lemma update_steps_frame (s : Store) (b : UpdateBody) (ind ind2 : IndicatorRow)
    (h : update_steps s b ind = .ok ind2) : FrameOk b ind ind2 := by
  unfold update_steps at h
  simp only [bind, Except.bind] at h
  cases h3 : upd_confidence s b (upd_case_sensitive b (upd_campaigns s b ind)) with
  | error e => simp only [h3] at h; simp at h
  | ok i3 =>
    simp only [h3] at h
    cases h4 : upd_impact s b i3 with
    | error e => simp only [h4] at h; simp at h
    | ok i4 =>
      simp only [h4] at h
      cases h6 : upd_status s b (upd_references s b i4) with
      | error e => simp only [h6] at h; simp at h
      | ok i6 =>
        simp only [h6] at h
        have f1 := upd_campaigns_frame s b ind
        have f2 := upd_case_sensitive_frame b (upd_campaigns s b ind)
        have f3 := upd_confidence_frame s b _ _ h3
        have f4 := upd_impact_frame s b _ _ h4
        have f5 := upd_references_frame s b i4
        have f6 := upd_status_frame s b _ _ h6
        have f7 := upd_substring_frame b i6
        have f8 := upd_tags_frame s b (upd_substring b i6)
        have f9 := upd_username_frame s b _ _ h
        exact ((((((((f1.trans f2).trans f3).trans f4).trans f5).trans
          f6).trans f7).trans f8).trans f9)

/-- C2: on every `PUT /indicators/{id}` naming an existing indicator,
the indicator's columns that the request body does not supply keep
exactly the values they had before the request — whatever the outcome of
the request — and the columns no body field can touch (id, type, value,
created/modified times) are always kept. -/
theorem update_indicator_frame (s : Store) (iid : Nat) (b : UpdateBody)
    (ind0 : IndicatorRow)
    (h0 : s.indicators.find? (fun i => i.id == iid) = some ind0) :
    ∃ ind1, (update_indicator s iid b).store.indicators.find?
        (fun i => i.id == iid) = some ind1
      ∧ ind1.id = ind0.id ∧ ind1.type_id = ind0.type_id ∧ ind1.value = ind0.value
      ∧ ind1.created_time = ind0.created_time
      ∧ ind1.modified_time = ind0.modified_time
      ∧ (b.campaigns = none → ind1.campaigns = ind0.campaigns)
      ∧ (b.case_sensitive = none → ind1.case_sensitive = ind0.case_sensitive)
      ∧ (b.confidence = none → ind1.confidence_id = ind0.confidence_id)
      ∧ (b.impact = none → ind1.impact_id = ind0.impact_id)
      ∧ (b.references = none → ind1.references = ind0.references)
      ∧ (b.status = none → ind1.status_id = ind0.status_id)
      ∧ (b.substring = none → ind1.substring = ind0.substring)
      ∧ (b.tags = none → ind1.tags = ind0.tags)
      ∧ (b.username = none → ind1.user_id = ind0.user_id) := by
  have hp0 : (ind0.id == iid) = true := by
    have := List.find?_some h0
    exact this
  simp only [update_indicator, h0]
  cases hs : update_steps s b ind0 with
  | error code =>
    exact ⟨ind0, h0, FrameOk.refl b ind0⟩
  | ok ind2 =>
    have hf : FrameOk b ind0 ind2 := update_steps_frame s b ind0 ind2 hs
    refine ⟨ind2, ?_, hf⟩
    have hpg : ((fun i : IndicatorRow => i.id == iid) ∘
        fun i : IndicatorRow => if (i.id == iid) = true then ind2 else i) =
        fun i : IndicatorRow => i.id == iid := by
      funext i
      show ((if (i.id == iid) = true then ind2 else i).id == iid) = (i.id == iid)
      by_cases hi : (i.id == iid) = true
      · rw [if_pos hi, hf.1]
        rw [hp0, hi]
      · rw [if_neg hi]
    rw [List.find?_map, hpg, h0]
    simp only [Option.map_some']
    rw [if_pos hp0]

/-- Witness for C2 at a concrete store: an empty update body leaves every
field of the stored indicator as it was. -/
theorem update_indicator_frame_witness :
    ∃ ind1, (update_indicator sampleStore 10 emptyUpdateBody).store.indicators.find?
        (fun i => i.id == 10) = some ind1
      ∧ ind1.id = sampleIndicator.id ∧ ind1.type_id = sampleIndicator.type_id
      ∧ ind1.value = sampleIndicator.value
      ∧ ind1.created_time = sampleIndicator.created_time
      ∧ ind1.modified_time = sampleIndicator.modified_time
      ∧ (emptyUpdateBody.campaigns = none → ind1.campaigns = sampleIndicator.campaigns)
      ∧ (emptyUpdateBody.case_sensitive = none → ind1.case_sensitive = sampleIndicator.case_sensitive)
      ∧ (emptyUpdateBody.confidence = none → ind1.confidence_id = sampleIndicator.confidence_id)
      ∧ (emptyUpdateBody.impact = none → ind1.impact_id = sampleIndicator.impact_id)
      ∧ (emptyUpdateBody.references = none → ind1.references = sampleIndicator.references)
      ∧ (emptyUpdateBody.status = none → ind1.status_id = sampleIndicator.status_id)
      ∧ (emptyUpdateBody.substring = none → ind1.substring = sampleIndicator.substring)
      ∧ (emptyUpdateBody.tags = none → ind1.tags = sampleIndicator.tags)
      ∧ (emptyUpdateBody.username = none → ind1.user_id = sampleIndicator.user_id) :=
  update_indicator_frame sampleStore 10 emptyUpdateBody sampleIndicator (by decide)

end SIP
